import Mathlib

/-!
Verification of the extension-reconciliation core of the code-sync CLI.

The embedding follows `src/unnamed/part_000` (the primary edition; `src/index.js`
contains the same logic inlined).  Pure helpers become Lean functions on
`List String`; the promise chain of the `install-extensions` command becomes a
single function from its external inputs (live-extension stdout, optional
saved-file contents, the answer of the operator, and per-identifier success
predicates for the external install/uninstall commands) to a record of the
observable run: terminal outcome, explicit `process.exit` code, whether the
confirmation prompt was shown, the computed plan, and the ordered trace of
dispatched install/uninstall operations.
-/

namespace CodeSync

/-- The helper `diff(base, values)`: a reduce over `values` that pushes onto the
accumulator every value not contained in `base` — the elements of `values`
not contained in `base`, in order of `values`. -/
def diff (base values : List String) : List String :=
  values.foldl (fun acc value => if value ∈ base then acc else acc.concat value) []

/-- Splitting on newlines at the character level, as the string split does:
every newline character separates two (possibly empty) chunks, so a string
with `n` newlines yields `n + 1` chunks. -/
def splitNewlines : List Char → List (List Char)
  | [] => [[]]
  | c :: rest =>
    if c = '\n' then [] :: splitNewlines rest
    else
      match splitNewlines rest with
      | [] => [[c]]
      | chunk :: chunks => (c :: chunk) :: chunks

/-- The helper `transformExtensionsStringToArray`: split the raw text on
newlines and drop empty strings (the truthiness filter keeps exactly the
non-empty chunks). -/
def transformExtensionsStringToArray (extensionsString : String) : List String :=
  ((splitNewlines extensionsString.toList).filter (fun cs => cs ≠ [])).map
    (fun cs => String.mk cs)

/-- Terminal observable outcomes of one `install-extensions` run. -/
inductive Outcome
  | missingSnapshot
  | noOp
  | cancelled
  | completed
  | errorLogged
  deriving DecidableEq, Repr

/-- One dispatched external operation, with the success of its command. -/
inductive Event
  | install (id : String) (ok : Bool)
  | uninstall (id : String) (ok : Bool)
  deriving DecidableEq, Repr

/-- Observable result of one `install-extensions` run. `exitCode` is the code of
an explicit `process.exit` call, `none` when the chain ends without one. -/
structure RunResult where
  outcome : Outcome
  exitCode : Option Nat
  promptShown : Bool
  toInstall : List String
  toUninstall : List String
  trace : List Event
  deriving DecidableEq, Repr

/-- The `installExtensions` command of `src/unnamed/part_000` (lines 109–186):

* parse the live list; parse the saved file (absent file: `readFileSync` throws,
  the rejection skips the rest of the chain and is logged by the final
  `.catch(console.error)`);
* empty saved list: message and `process.exit(1)`;
* plan: `extensionsToInstall = diff(installedExtensions, savedExtensions)`,
  `extensionsToUninstall = diff(savedExtensions, installedExtensions)`;
* plan empty: message and `process.exit(0)`, prompt never shown;
* prompt; any answer other than the lowercase letter y: exit with code 0;
* `Promise.all(extensionsToInstall.map(installExtension))` dispatches every
  install; if any rejects, `Promise.all` rejects, the uninstall step and the
  success message are skipped and the error is logged;
* `Promise.all(extensionsToUninstall.map(uninstallExtension))` dispatches every
  uninstall; if any rejects the success message is skipped and the error is
  logged; otherwise the success message prints. -/
def installExtensionsRun (installedStr : String) (savedFile : Option String)
    (answer : String) (installOk uninstallOk : String → Bool) : RunResult :=
  let installedExtensions := transformExtensionsStringToArray installedStr
  match savedFile with
  | none =>
    { outcome := .errorLogged, exitCode := none, promptShown := false,
      toInstall := [], toUninstall := [], trace := [] }
  | some savedStr =>
    let savedExtensions := transformExtensionsStringToArray savedStr
    if savedExtensions = [] then
      { outcome := .missingSnapshot, exitCode := some 1, promptShown := false,
        toInstall := [], toUninstall := [], trace := [] }
    else
      let extensionsToInstall := diff installedExtensions savedExtensions
      let extensionsToUninstall := diff savedExtensions installedExtensions
      if extensionsToUninstall = [] ∧ extensionsToInstall = [] then
        { outcome := .noOp, exitCode := some 0, promptShown := false,
          toInstall := extensionsToInstall, toUninstall := extensionsToUninstall,
          trace := [] }
      else if answer ≠ "y" then
        { outcome := .cancelled, exitCode := some 0, promptShown := true,
          toInstall := extensionsToInstall, toUninstall := extensionsToUninstall,
          trace := [] }
      else
        let installEvents := extensionsToInstall.map
          (fun id => Event.install id (installOk id))
        if extensionsToInstall.all installOk then
          let uninstallEvents := extensionsToUninstall.map
            (fun id => Event.uninstall id (uninstallOk id))
          if extensionsToUninstall.all uninstallOk then
            { outcome := .completed, exitCode := none, promptShown := true,
              toInstall := extensionsToInstall, toUninstall := extensionsToUninstall,
              trace := installEvents ++ uninstallEvents }
          else
            { outcome := .errorLogged, exitCode := none, promptShown := true,
              toInstall := extensionsToInstall, toUninstall := extensionsToUninstall,
              trace := installEvents ++ uninstallEvents }
        else
          { outcome := .errorLogged, exitCode := none, promptShown := true,
            toInstall := extensionsToInstall, toUninstall := extensionsToUninstall,
            trace := installEvents }

/-- The identifiers whose install command was dispatched, in dispatch order. -/
def installsAttempted (r : RunResult) : List String :=
  r.trace.filterMap (fun e => match e with
    | .install id _ => some id
    | .uninstall _ _ => none)

/-- The identifiers whose uninstall command was dispatched, in dispatch order. -/
def uninstallsAttempted (r : RunResult) : List String :=
  r.trace.filterMap (fun e => match e with
    | .install _ _ => none
    | .uninstall id _ => some id)

def isInstallEvent : Event → Bool
  | .install _ _ => true
  | .uninstall _ _ => false

/-- Every install event of the trace precedes every uninstall event. -/
def installPhaseFirst : List Event → Bool
  | [] => true
  | e :: rest =>
    if isInstallEvent e then installPhaseFirst rest
    else rest.all (fun e2 => !isInstallEvent e2)

/-- The two lines computing the plan (`part_000` lines 136–137), as a pair. -/
def reconcilerPlan (installedExtensions savedExtensions : List String) :
    List String × List String :=
  (diff installedExtensions savedExtensions, diff savedExtensions installedExtensions)

theorem diff_eq_filter (base values : List String) :
    diff base values = values.filter (fun v => decide (v ∉ base)) := by
  suffices h : ∀ acc,
      values.foldl (fun acc value => if value ∈ base then acc else acc.concat value) acc
        = acc ++ values.filter (fun v => decide (v ∉ base)) by
    simpa [diff] using h []
  induction values with
  | nil => intro acc; simp
  | cons v vs ih =>
    intro acc
    rw [List.foldl_cons]
    by_cases h : v ∈ base
    · rw [if_pos h, ih]
      simp [List.filter_cons, h]
    · rw [if_neg h, ih]
      simp [List.filter_cons, h, List.concat_eq_append]

theorem mem_diff (base values : List String) (x : String) :
    x ∈ diff base values ↔ x ∈ values ∧ x ∉ base := by
  simp [diff_eq_filter, List.mem_filter]

/-- Claim C1: for every LiveSet `L` and SavedSet `S`, the reconciler plan
`(I, U) = (diff L S, diff S L)` satisfies `I = S \ L`, `U = L \ S`,
`I ∩ U = ∅` and `I ∪ U ∪ (L ∩ S) = L ∪ S` at the level of sets. -/
theorem C1_reconciler_plan_is_difference_split (L S : List String) :
    (reconcilerPlan L S).1.toFinset = S.toFinset \ L.toFinset
    ∧ (reconcilerPlan L S).2.toFinset = L.toFinset \ S.toFinset
    ∧ (reconcilerPlan L S).1.toFinset ∩ (reconcilerPlan L S).2.toFinset = ∅
    ∧ (reconcilerPlan L S).1.toFinset ∪ (reconcilerPlan L S).2.toFinset
        ∪ (L.toFinset ∩ S.toFinset) = L.toFinset ∪ S.toFinset := by
  refine ⟨?_, ?_, ?_, ?_⟩ <;>
  · ext x
    simp only [reconcilerPlan, List.mem_toFinset, Finset.mem_sdiff, Finset.mem_inter,
      Finset.mem_union, Finset.not_mem_empty, mem_diff, iff_false, not_and]
    try tauto

theorem diff_eq_nil_of_subset (base values : List String)
    (h : ∀ x ∈ values, x ∈ base) : diff base values = [] := by
  rw [diff_eq_filter, List.filter_eq_nil_iff]
  intro a ha
  simp only [decide_eq_true_eq]
  exact not_not_intro (h a ha)

/-- Claim C7: applying a plan (new LiveSet = (L ∪ I) \ U) and re-running the
reconciler against the same SavedSet yields the empty plan. -/
theorem C7_reconciler_idempotent (L S : List String) :
    reconcilerPlan
      ((L ++ (reconcilerPlan L S).1).filter (fun x => decide (x ∉ (reconcilerPlan L S).2)))
      S = ([], []) := by
  have hnew : ∀ x, x ∈ (L ++ (reconcilerPlan L S).1).filter
      (fun x => decide (x ∉ (reconcilerPlan L S).2)) ↔ x ∈ S := by
    intro x
    simp only [reconcilerPlan, List.mem_filter, List.mem_append, mem_diff,
      decide_eq_true_eq]
    constructor
    · rintro ⟨hL | ⟨hS, _⟩, hout⟩
      · by_cases hS : x ∈ S
        · exact hS
        · exact absurd ⟨hL, hS⟩ hout
      · exact hS
    · intro hS
      by_cases hL : x ∈ L
      · exact ⟨Or.inl hL, fun h => h.2 hS⟩
      · exact ⟨Or.inr ⟨hS, hL⟩, fun h => hL h.1⟩
  have h1 : diff ((L ++ (reconcilerPlan L S).1).filter
      (fun x => decide (x ∉ (reconcilerPlan L S).2))) S = [] :=
    diff_eq_nil_of_subset _ _ (fun x hx => (hnew x).mpr hx)
  have h2 : diff S ((L ++ (reconcilerPlan L S).1).filter
      (fun x => decide (x ∉ (reconcilerPlan L S).2))) = [] :=
    diff_eq_nil_of_subset _ _ (fun x hx => (hnew x).mp hx)
  rw [reconcilerPlan, h1, h2]

/-- Claim C8: the reconciler is deterministic — equal input lists (same
elements, same order) give equal plans, elements and order included. -/
theorem C8_reconciler_deterministic (L₁ S₁ L₂ S₂ : List String)
    (hL : L₁ = L₂) (hS : S₁ = S₂) :
    reconcilerPlan L₁ S₁ = reconcilerPlan L₂ S₂ := by
  rw [hL, hS]

/-- Witness for C8 at a concrete input. -/
theorem C8_reconciler_deterministic_witness :
    reconcilerPlan ["a", "b"] ["b", "c"] = reconcilerPlan ["a", "b"] ["b", "c"] :=
  C8_reconciler_deterministic ["a", "b"] ["b", "c"] ["a", "b"] ["b", "c"] rfl rfl

/-- Claim C9: `diff base values` is exactly the subsequence of `values` whose
elements are not members of `base`: order follows `values`, duplicates are kept
per occurrence, and the plan is `(saved.filter (∉ live), live.filter (∉ saved))`. -/
theorem C9_diff_is_order_preserving_filter (base values live saved : List String) :
    diff base values = values.filter (fun v => decide (v ∉ base))
    ∧ (diff base values).Sublist values
    ∧ reconcilerPlan live saved
        = (saved.filter (fun v => decide (v ∉ live)),
           live.filter (fun v => decide (v ∉ saved))) := by
  refine ⟨diff_eq_filter base values, ?_, ?_⟩
  · rw [diff_eq_filter]
    exact List.filter_sublist values
  · rw [reconcilerPlan, diff_eq_filter, diff_eq_filter]

theorem all_not_isInstallEvent_map_uninstall (ys : List String) (g : String → Bool) :
    (ys.map (fun id => Event.uninstall id (g id))).all (fun e => !isInstallEvent e) = true := by
  simp [List.all_map, isInstallEvent, Function.comp]

theorem installPhaseFirst_shape (xs ys : List String) (f g : String → Bool) :
    installPhaseFirst (xs.map (fun id => Event.install id (f id))
      ++ ys.map (fun id => Event.uninstall id (g id))) = true := by
  induction xs with
  | nil =>
    cases ys with
    | nil => rfl
    | cons y ys =>
      simp [installPhaseFirst, isInstallEvent, all_not_isInstallEvent_map_uninstall]
  | cons x xs ih => simpa [installPhaseFirst, isInstallEvent] using ih

theorem filterMap_install_map (xs : List String) (f : String → Bool) :
    (xs.map (fun id => Event.install id (f id))).filterMap
      (fun e => match e with
        | .install id _ => some id
        | .uninstall _ _ => none) = xs := by
  induction xs with
  | nil => rfl
  | cons x xs ih => simp [List.filterMap_cons, ih]

theorem filterMap_install_of_uninstall_map (ys : List String) (g : String → Bool) :
    (ys.map (fun id => Event.uninstall id (g id))).filterMap
      (fun e => match e with
        | .install id _ => some id
        | .uninstall _ _ => none) = [] := by
  induction ys with
  | nil => rfl
  | cons y ys ih => simp [List.filterMap_cons, ih]

theorem filterMap_uninstall_of_install_map (xs : List String) (f : String → Bool) :
    (xs.map (fun id => Event.install id (f id))).filterMap
      (fun e => match e with
        | .install _ _ => none
        | .uninstall id _ => some id) = [] := by
  induction xs with
  | nil => rfl
  | cons x xs ih => simp [List.filterMap_cons, ih]

theorem filterMap_uninstall_map (ys : List String) (g : String → Bool) :
    (ys.map (fun id => Event.uninstall id (g id))).filterMap
      (fun e => match e with
        | .install _ _ => none
        | .uninstall id _ => some id) = ys := by
  induction ys with
  | nil => rfl
  | cons y ys ih => simp [List.filterMap_cons, ih]

/-- Claim C6: in every run, every dispatched install operation precedes every
dispatched uninstall operation in the trace, and whenever any uninstall was
dispatched, every identifier of the install set had already been dispatched
(the uninstall phase starts only after the install phase settles). -/
theorem C6_installs_settle_before_uninstalls (installedStr : String)
    (savedFile : Option String) (answer : String) (installOk uninstallOk : String → Bool) :
    installPhaseFirst
        (installExtensionsRun installedStr savedFile answer installOk uninstallOk).trace = true
    ∧ (uninstallsAttempted
          (installExtensionsRun installedStr savedFile answer installOk uninstallOk) = []
       ∨ installsAttempted
            (installExtensionsRun installedStr savedFile answer installOk uninstallOk)
          = (installExtensionsRun installedStr savedFile answer installOk uninstallOk).toInstall) := by
  rcases savedFile with _ | savedStr
  · exact ⟨rfl, Or.inl rfl⟩
  · simp only [installExtensionsRun]
    split_ifs with h1 h2 h3 h4 h5
    · exact ⟨rfl, Or.inl rfl⟩
    · exact ⟨rfl, Or.inl rfl⟩
    · exact ⟨rfl, Or.inl rfl⟩
    · refine ⟨installPhaseFirst_shape _ _ _ _, Or.inr ?_⟩
      simp only [installsAttempted, List.filterMap_append, filterMap_install_map,
        filterMap_install_of_uninstall_map, List.append_nil]
    · refine ⟨installPhaseFirst_shape _ _ _ _, Or.inr ?_⟩
      simp only [installsAttempted, List.filterMap_append, filterMap_install_map,
        filterMap_install_of_uninstall_map, List.append_nil]
    · refine ⟨?_, Or.inl ?_⟩
      · simpa using installPhaseFirst_shape
          (diff (transformExtensionsStringToArray installedStr)
            (transformExtensionsStringToArray savedStr)) [] installOk uninstallOk
      · simp only [uninstallsAttempted, filterMap_uninstall_of_install_map]

/-- Claim C3 (amended): a saved file that parses to zero entries aborts with the
empty-file message and exit code 1, before any plan, prompt or operation; an
absent saved file makes the read throw, the rejection is logged by the final
catch — no operation runs and no prompt shows, but there is no exit-1. -/
theorem C3_missing_or_empty_snapshot (installedStr answer : String)
    (installOk uninstallOk : String → Bool) :
    (∀ savedStr, transformExtensionsStringToArray savedStr = [] →
      installExtensionsRun installedStr (some savedStr) answer installOk uninstallOk
        = { outcome := .missingSnapshot, exitCode := some 1, promptShown := false,
            toInstall := [], toUninstall := [], trace := [] })
    ∧ installExtensionsRun installedStr none answer installOk uninstallOk
        = { outcome := .errorLogged, exitCode := none, promptShown := false,
            toInstall := [], toUninstall := [], trace := [] } := by
  constructor
  · intro savedStr h
    simp [installExtensionsRun, h]
  · rfl

/-- Counterexample to claim C3 as stated: with the saved extensions file
absent, the run does not produce the MissingSnapshot outcome and does not exit
with code 1 (the read error is merely logged). -/
theorem C3_counterexample :
    ¬ ((installExtensionsRun "a" none "y" (fun _ => true) (fun _ => true)).outcome
          = Outcome.missingSnapshot
      ∧ (installExtensionsRun "a" none "y" (fun _ => true) (fun _ => true)).exitCode
          = some 1) := by
  decide

/-- Witness for C3: evaluates the amended theorem on a present-but-empty file. -/
theorem C3_missing_or_empty_snapshot_witness :
    installExtensionsRun "a" (some "") "y" (fun _ => true) (fun _ => true)
      = { outcome := .missingSnapshot, exitCode := some 1, promptShown := false,
          toInstall := [], toUninstall := [], trace := [] } :=
  (C3_missing_or_empty_snapshot "a" "y" (fun _ => true) (fun _ => true)).1 "" (by decide)

/-- Claim C5: a computed plan with both sets empty ends the run as a no-op with
exit code 0; the prompt is never shown and nothing is dispatched. -/
theorem C5_empty_plan_noop (installedStr savedStr answer : String)
    (installOk uninstallOk : String → Bool)
    (hsaved : transformExtensionsStringToArray savedStr ≠ [])
    (hU : diff (transformExtensionsStringToArray savedStr)
        (transformExtensionsStringToArray installedStr) = [])
    (hI : diff (transformExtensionsStringToArray installedStr)
        (transformExtensionsStringToArray savedStr) = []) :
    installExtensionsRun installedStr (some savedStr) answer installOk uninstallOk
      = { outcome := .noOp, exitCode := some 0, promptShown := false,
          toInstall := [], toUninstall := [], trace := [] } := by
  simp [installExtensionsRun, hsaved, hU, hI]

/-- Witness for C5: live = saved = {a, b}. -/
theorem C5_empty_plan_noop_witness :
    installExtensionsRun "a\nb" (some "a\nb") "x" (fun _ => true) (fun _ => true)
      = { outcome := .noOp, exitCode := some 0, promptShown := false,
          toInstall := [], toUninstall := [], trace := [] } :=
  C5_empty_plan_noop "a\nb" "a\nb" "x" (fun _ => true) (fun _ => true)
    (by decide) (by decide) (by decide)

/-- Claim C4: on a non-empty plan, any answer other than the affirmative token
cancels the run: exit code 0, prompt was shown, and the trace is empty (no
install or uninstall dispatched). -/
theorem C4_decline_cancels (installedStr savedStr answer : String)
    (installOk uninstallOk : String → Bool)
    (hsaved : transformExtensionsStringToArray savedStr ≠ [])
    (hplan : ¬(diff (transformExtensionsStringToArray savedStr)
          (transformExtensionsStringToArray installedStr) = []
        ∧ diff (transformExtensionsStringToArray installedStr)
          (transformExtensionsStringToArray savedStr) = []))
    (hanswer : answer ≠ "y") :
    installExtensionsRun installedStr (some savedStr) answer installOk uninstallOk
      = { outcome := .cancelled, exitCode := some 0, promptShown := true,
          toInstall := diff (transformExtensionsStringToArray installedStr)
            (transformExtensionsStringToArray savedStr),
          toUninstall := diff (transformExtensionsStringToArray savedStr)
            (transformExtensionsStringToArray installedStr),
          trace := [] } := by
  simp [installExtensionsRun, hsaved, hplan, hanswer]

/-- Witness for C4: live = {a}, saved = {a, b}, answer "n". -/
theorem C4_decline_cancels_witness :
    installExtensionsRun "a" (some "a\nb") "n" (fun _ => true) (fun _ => true)
      = { outcome := .cancelled, exitCode := some 0, promptShown := true,
          toInstall := diff (transformExtensionsStringToArray "a")
            (transformExtensionsStringToArray "a\nb"),
          toUninstall := diff (transformExtensionsStringToArray "a\nb")
            (transformExtensionsStringToArray "a"),
          trace := [] } :=
  C4_decline_cancels "a" "a\nb" "n" (fun _ => true) (fun _ => true)
    (by decide) (by decide) (by decide)

/-- Claim C10: once the prompt is reached, the run is cancelled exactly when the
answer differs from the single lowercase token "y" (so "Y", "yes" and padded
variants all decline), and every such decline exits with code 0. -/
theorem C10_affirmative_token_is_y (installedStr : String) (savedFile : Option String)
    (answer : String) (installOk uninstallOk : String → Bool)
    (hprompt : (installExtensionsRun installedStr savedFile answer
        installOk uninstallOk).promptShown = true) :
    ((installExtensionsRun installedStr savedFile answer installOk uninstallOk).outcome
        = Outcome.cancelled ↔ answer ≠ "y")
    ∧ (answer ≠ "y" →
        (installExtensionsRun installedStr savedFile answer installOk uninstallOk).exitCode
          = some 0) := by
  rcases savedFile with _ | savedStr
  · simp [installExtensionsRun] at hprompt
  · simp only [installExtensionsRun] at hprompt ⊢
    split_ifs at hprompt ⊢ with h1 h2 h3 h4 h5 <;> simp_all

/-- Witness for C10: answer "Y" (wrong case) declines and exits 0. -/
theorem C10_affirmative_token_is_y_witness :
    (installExtensionsRun "a" (some "a\nb") "Y" (fun _ => true) (fun _ => true)).outcome
        = Outcome.cancelled
    ∧ (installExtensionsRun "a" (some "a\nb") "Y" (fun _ => true) (fun _ => true)).exitCode
        = some 0 :=
  ⟨(C10_affirmative_token_is_y "a" (some "a\nb") "Y" (fun _ => true) (fun _ => true)
      (by decide)).1.mpr (by decide),
   (C10_affirmative_token_is_y "a" (some "a\nb") "Y" (fun _ => true) (fun _ => true)
      (by decide)).2 (by decide)⟩

/-- Claim C2 (amended): on a confirmed plan where some install fails, every
identifier of the install set is still dispatched (with its own result), but no
uninstall is dispatched and the terminal outcome is the logged-error one, not
Completed: `Promise.all` over the installs rejects, skipping the uninstall step
and the final success message. -/
theorem C2_install_failure_skips_uninstalls (installedStr savedStr : String)
    (installOk uninstallOk : String → Bool)
    (hsaved : transformExtensionsStringToArray savedStr ≠ [])
    (hplan : ¬(diff (transformExtensionsStringToArray savedStr)
          (transformExtensionsStringToArray installedStr) = []
        ∧ diff (transformExtensionsStringToArray installedStr)
          (transformExtensionsStringToArray savedStr) = []))
    (hfail : ¬ (diff (transformExtensionsStringToArray installedStr)
        (transformExtensionsStringToArray savedStr)).all installOk = true) :
    installExtensionsRun installedStr (some savedStr) "y" installOk uninstallOk
      = { outcome := .errorLogged, exitCode := none, promptShown := true,
          toInstall := diff (transformExtensionsStringToArray installedStr)
            (transformExtensionsStringToArray savedStr),
          toUninstall := diff (transformExtensionsStringToArray savedStr)
            (transformExtensionsStringToArray installedStr),
          trace := (diff (transformExtensionsStringToArray installedStr)
              (transformExtensionsStringToArray savedStr)).map
            (fun id => Event.install id (installOk id)) } := by
  simp [installExtensionsRun, hsaved, hplan, hfail]

/-- Counterexample to claim C2 as stated: live = {u}, saved = {a, b}, install of
"a" fails — the uninstall of "u" is never dispatched and the outcome is not
Completed. -/
theorem C2_counterexample :
    ¬ ((installExtensionsRun "u" (some "a\nb") "y" (fun s => s == "b")
          (fun _ => true)).outcome = Outcome.completed
      ∧ uninstallsAttempted (installExtensionsRun "u" (some "a\nb") "y"
          (fun s => s == "b") (fun _ => true)) = ["u"]) := by
  decide

/-- Witness for C2: evaluates the amended theorem at live = {u}, saved = {a, b},
with the install of "a" failing. -/
theorem C2_install_failure_skips_uninstalls_witness :
    installExtensionsRun "u" (some "a\nb") "y" (fun s => s == "b") (fun _ => true)
      = { outcome := .errorLogged, exitCode := none, promptShown := true,
          toInstall := diff (transformExtensionsStringToArray "u")
            (transformExtensionsStringToArray "a\nb"),
          toUninstall := diff (transformExtensionsStringToArray "a\nb")
            (transformExtensionsStringToArray "u"),
          trace := (diff (transformExtensionsStringToArray "u")
              (transformExtensionsStringToArray "a\nb")).map
            (fun id => Event.install id ((fun s => s == "b") id)) } :=
  C2_install_failure_skips_uninstalls "u" "a\nb" (fun s => s == "b") (fun _ => true)
    (by decide) (by decide) (by decide)

end CodeSync
